import Mathlib

/-!
Shallow embedding of the Resume-Generator frontend
(src/frontend/src/services/api.js, src/frontend/src/pages/WizardPage.js,
src/frontend/src/pages/AuthPage.js, and the earlier wizard variant in
src/unnamed/part_001).  JavaScript strings are Lean `String`s, JavaScript
numbers that matter here are modelled by `JsNum` (an integer or NaN),
nullable values by `Option`, and a fallible HTTP call by a function into
`Except ApiFailure _` supplied as a parameter.
-/

/-- JavaScript truthiness of a string: the empty string is falsy. -/
def strTruthy (s : String) : Bool := s != ""

/-- JavaScript number as it occurs here: an integer or NaN (the result of a
failed parseInt). -/
inductive JsNum where
  | nan : JsNum
  | int (n : Int) : JsNum
deriving DecidableEq

/-- JavaScript truthiness of a number: 0 and NaN are falsy. -/
def JsNum.truthy : JsNum → Bool
  | JsNum.nan => false
  | JsNum.int n => n != 0

/-- JavaScript truthiness of a nullable number: null, 0 and NaN are falsy. -/
def jsOptTruthy : Option JsNum → Bool
  | none => false
  | some u => u.truthy

/-- JavaScript detail || fallback on a nullable detail string: a missing
detail and the empty string are both falsy and give the fallback. -/
def jsStrOr (detail : Option String) (fallback : String) : String :=
  match detail with
  | some t => if strTruthy t then t else fallback
  | none => fallback

/-- JavaScript truthiness of the nullable resume id: null and 0 are
falsy. -/
def jsOptNatTruthy : Option Nat → Bool
  | none => false
  | some n => n != 0

/-- Decimal core of JavaScript parseInt: skip leading whitespace, read an
optional sign, then the longest digit prefix; no digits gives NaN. -/
def parseIntJs (s : String) : JsNum :=
  let cs := s.toList.dropWhile (fun c => c = ' ' || c = '\t' || c = '\n' || c = '\r')
  let sign : Int := match cs with
    | '-' :: _ => -1
    | _ => 1
  let rest := match cs with
    | '-' :: r => r
    | '+' :: r => r
    | r => r
  let ds := rest.takeWhile (fun c => c.isDigit)
  if ds.isEmpty then JsNum.nan
  else JsNum.int (sign * (ds.foldl (fun a c => 10 * a + (c.toNat - 48)) 0 : Nat))

/-- One education entry of the wizard form (WizardPage.js, currentEducation). -/
structure Education where
  degree : String
  institution : String
  field : String
  graduation_year : String
deriving DecidableEq

/-- One experience entry of the wizard form (WizardPage.js, currentExperience). -/
structure Experience where
  title : String
  company : String
  location : String
  dates : String
  description : String
  bullets : List String
deriving DecidableEq

/-- The wizard form data state (WizardPage.js, formData). -/
structure FormData where
  name : String
  email : String
  phone : String
  location : String
  professional_summary : String
  education : List Education
  experience : List Experience
  key_skills : List String
  technical_skills : List String
  certifications : List String
  awards : List String
deriving DecidableEq

/-- The contact block assembled by handleGenerateResume. -/
structure Contact where
  email : String
  phone : String
  location : String
deriving DecidableEq

/-- The candidateData object assembled by handleGenerateResume. -/
structure CandidateData where
  name : String
  contact : Contact
  professional_summary : String
  key_skills : List String
  technical_skills : List String
  experience : List Experience
  education : List Education
  certifications : List String
  awards : List String
deriving DecidableEq

/-- The body of the POST /api/generate-resume request built by
resumeAPI.generate: the candidate profile, and a user_id field that is
present exactly when the if (userId) branch ran. -/
structure GenPayload where
  candidate : CandidateData
  user_id : Option JsNum
deriving DecidableEq

/-- A failed axios call; detail is err.response?.data?.detail when the
server supplied one. -/
structure ApiFailure where
  detail : Option String
deriving DecidableEq

/-- The data object nested in a successful generate response. -/
structure GenData where
  resume_id : Nat
deriving DecidableEq

/-- The parsed body of a successful generate response: {status,
data:{resume_id}}; the UI reads data.resume_id from it. -/
structure GenResponse where
  status : String
  data : GenData
deriving DecidableEq

/-- resumeAPI.generate payload assembly (api.js lines 34-38): copy
candidateData and add user_id only when userId is truthy. -/
def resumeGenerate (candidateData : CandidateData) (userId : Option JsNum) : GenPayload :=
  { candidate := candidateData,
    user_id := if jsOptTruthy userId then userId else none }

/-- resumeAPI.generate as a whole (api.js lines 34-41): build the payload,
issue the single POST, and hand the response body back unchanged. -/
def resumeGenerateCall (candidateData : CandidateData) (userId : Option JsNum)
    (post : GenPayload → Except ApiFailure GenResponse) :
    GenPayload × Except ApiFailure GenResponse :=
  let payload := resumeGenerate candidateData userId
  (payload, post payload)

/-- The whole WizardPage component state (WizardPage.js lines 9-46). -/
structure WizardState where
  currentStep : Int
  loading : Bool
  error : String
  generatedResumeId : Option Nat
  formData : FormData
  currentEducation : Education
  currentExperience : Experience
  currentBullet : String
deriving DecidableEq

/-- The steps array of WizardPage.js line 8. -/
def steps : List String :=
  ["Personal Info", "Education", "Experience", "Skills", "Review"]

/-- The steps array of the earlier wizard variant (src/unnamed/part_001). -/
def stepsV1 : List String :=
  ["Step 1: Personal Information", "Step 2: Education",
   "Step 3: Work Experience", "Step 4: Skills", "Step 5: Review"]

/-- handleNext (WizardPage.js lines 48-53). -/
def handleNext (s : WizardState) : WizardState :=
  if s.currentStep < (steps.length : Int) - 1 then
    { s with currentStep := s.currentStep + 1, error := "" }
  else s

/-- handlePrev (WizardPage.js lines 55-60). -/
def handlePrev (s : WizardState) : WizardState :=
  if s.currentStep > 0 then
    { s with currentStep := s.currentStep - 1, error := "" }
  else s

/-- Sidebar step click (WizardPage.js line 230): setCurrentStep(index) for a
rendered index of the steps list. -/
def stepClick (s : WizardState) (index : Nat) : WizardState :=
  { s with currentStep := (index : Int) }

/-- handleNext of the earlier variant (src/unnamed/part_001 lines 14-16):
clamp with Math.min. -/
def handleNextClamp (prevStep : Int) : Int :=
  min (prevStep + 1) ((stepsV1.length : Int) - 1)

/-- handlePrev of the earlier variant (src/unnamed/part_001 lines 18-20):
clamp with Math.max. -/
def handlePrevClamp (prevStep : Int) : Int :=
  max (prevStep - 1) 0

/-- The reset value of currentEducation (WizardPage.js line 68). -/
def emptyEducation : Education :=
  { degree := "", institution := "", field := "", graduation_year := "" }

/-- The reset value of currentExperience (WizardPage.js lines 85-92). -/
def emptyExperience : Experience :=
  { title := "", company := "", location := "", dates := "",
    description := "", bullets := [] }

/-- addEducation (WizardPage.js lines 62-70). -/
def addEducation (s : WizardState) : WizardState :=
  if strTruthy s.currentEducation.degree && strTruthy s.currentEducation.institution then
    { s with
      formData := { s.formData with
        education := s.formData.education ++ [s.currentEducation] },
      currentEducation := emptyEducation }
  else s

/-- The JavaScript list-removal idiom list.filter((_, i) => i !== index),
used by every remove handler of WizardPage.js. -/
def filterIdx {α : Type} (l : List α) (index : Nat) : List α :=
  ((List.enumFrom 0 l).filter (fun p => p.1 != index)).map Prod.snd

/-- removeEducation (WizardPage.js lines 72-77). -/
def removeEducation (s : WizardState) (index : Nat) : WizardState :=
  { s with formData := { s.formData with
      education := filterIdx s.formData.education index } }

/-- addExperience (WizardPage.js lines 79-94). -/
def addExperience (s : WizardState) : WizardState :=
  if strTruthy s.currentExperience.title && strTruthy s.currentExperience.company then
    { s with
      formData := { s.formData with
        experience := s.formData.experience ++ [s.currentExperience] },
      currentExperience := emptyExperience }
  else s

/-- removeExperience (WizardPage.js lines 96-101). -/
def removeExperience (s : WizardState) (index : Nat) : WizardState :=
  { s with formData := { s.formData with
      experience := filterIdx s.formData.experience index } }

/-- addBullet (WizardPage.js lines 103-111): guarded by currentBullet.trim()
but the untrimmed bullet is appended. -/
def addBullet (s : WizardState) : WizardState :=
  if strTruthy s.currentBullet.trim then
    { s with
      currentExperience := { s.currentExperience with
        bullets := s.currentExperience.bullets ++ [s.currentBullet] },
      currentBullet := "" }
  else s

/-- removeBullet (WizardPage.js lines 113-118). -/
def removeBullet (s : WizardState) (index : Nat) : WizardState :=
  { s with currentExperience := { s.currentExperience with
      bullets := filterIdx s.currentExperience.bullets index } }

/-- The candidateData object built by handleGenerateResume
(WizardPage.js lines 156-170). -/
def buildCandidate (fd : FormData) : CandidateData :=
  { name := fd.name,
    contact := { email := fd.email, phone := fd.phone, location := fd.location },
    professional_summary := fd.professional_summary,
    key_skills := fd.key_skills,
    technical_skills := fd.technical_skills,
    experience := fd.experience,
    education := fd.education,
    certifications := fd.certifications,
    awards := fd.awards }

/-- The userId argument the wizard passes to resumeAPI.generate
(WizardPage.js lines 172-173): userId ? parseInt(userId) : null applied to
the nullable stored string. -/
def wizardUserId (stored : Option String) : Option JsNum :=
  match stored with
  | none => none
  | some u => if strTruthy u then some (parseIntJs u) else none

/-- Whether all five required fields pass the two validation checks of
handleGenerateResume (WizardPage.js lines 143-153). -/
def requiredAll (fd : FormData) : Bool :=
  strTruthy fd.name && strTruthy fd.email && strTruthy fd.phone &&
    strTruthy fd.location && strTruthy fd.professional_summary

/-- The synchronous prefix of handleGenerateResume up to the await
(WizardPage.js lines 138-173): set loading, clear the error, run the two
required-field checks (each early return resets loading), and otherwise
produce the request payload. -/
def genStart (s : WizardState) (stored : Option String) :
    WizardState × Option GenPayload :=
  let s0 := { s with loading := true, error := "" }
  if !(strTruthy s.formData.name && strTruthy s.formData.email &&
        strTruthy s.formData.phone && strTruthy s.formData.location) then
    ({ s0 with error := "Please fill in all personal information fields",
               loading := false }, none)
  else if !(strTruthy s.formData.professional_summary) then
    ({ s0 with error := "Please provide a professional summary",
               loading := false }, none)
  else
    (s0, some (resumeGenerate (buildCandidate s.formData) (wizardUserId stored)))

/-- The continuation of handleGenerateResume after the await
(WizardPage.js lines 175-183): record the resume id on a success status,
set the error from the detail on a throw, and reset loading in finally. -/
def genFinish (s : WizardState) (r : Except ApiFailure GenResponse) : WizardState :=
  match r with
  | Except.ok resp =>
    let s2 := if resp.status == "success"
      then { s with generatedResumeId := some resp.data.resume_id }
      else s
    { s2 with loading := false }
  | Except.error e =>
    { s with
      error := jsStrOr e.detail "Failed to generate resume. Please try again.",
      loading := false }

/-- The outcome of one handleGenerateResume run: the POST it issued, if
any, and the final component state. -/
structure GenEffect where
  request : Option GenPayload
  state : WizardState
deriving DecidableEq

/-- handleGenerateResume (WizardPage.js lines 138-184), with the stored
userId string and the server behaviour as parameters. -/
def handleGenerateResume (s : WizardState) (stored : Option String)
    (server : GenPayload → Except ApiFailure GenResponse) : GenEffect :=
  match genStart s stored with
  | (s1, none) => { request := none, state := s1 }
  | (s1, some p) => { request := some p, state := genFinish s1 (server p) }

/-- The outcome of one handleDownload run (WizardPage.js lines 186-205):
the resume id requested, if any, and the resulting error state. -/
structure DlEffect where
  request : Option Nat
  error : String
deriving DecidableEq

/-- handleDownload (WizardPage.js lines 186-205): the !generatedResumeId
falsy check early-returns on null and on id 0; the DOM side of a
successful download is irrelevant here, and the catch branch always shows
the generic message. -/
def handleDownload (s : WizardState)
    (download : Nat → Except ApiFailure Unit) : DlEffect :=
  if !(jsOptNatTruthy s.generatedResumeId) then
    { request := none, error := "Please generate a resume first" }
  else
    match s.generatedResumeId with
    | none => { request := none, error := "Please generate a resume first" }
    | some rid =>
      match download rid with
      | Except.ok _ => { request := some rid, error := s.error }
      | Except.error _ =>
        { request := some rid,
          error := "Failed to download resume. Please try again." }

/-- Browser local storage as the app uses it: the token and userId keys. -/
structure LocalStorage where
  token : Option String
  userId : Option String
deriving DecidableEq

/-- The axios request headers that matter to the interceptor. -/
structure Headers where
  contentType : String
  authorization : Option String
deriving DecidableEq

/-- The headers every request of the shared client starts from
(api.js lines 5-10). -/
def baseHeaders : Headers :=
  { contentType := "application/json", authorization := none }

/-- The request interceptor (api.js lines 13-19): read the token key and
attach a Bearer header when the value is truthy. -/
def requestInterceptor (storage : LocalStorage) (config : Headers) : Headers :=
  match storage.token with
  | some t =>
    if strTruthy t then { config with authorization := some ("Bearer " ++ t) }
    else config
  | none => config

/-- A request of authAPI (api.js lines 21-31). -/
inductive AuthRequest where
  | login (email password : String) : AuthRequest
  | signup (name email password : String) : AuthRequest
deriving DecidableEq

/-- The parsed body of an auth response: {status, token, user_id}. -/
structure AuthResponse where
  status : String
  token : String
  user_id : Int
deriving DecidableEq

/-- The AuthPage state handleSubmit touches, together with the browser
pieces it writes: local storage and the current route. -/
structure AuthState where
  storage : LocalStorage
  route : String
  error : String
  loading : Bool
deriving DecidableEq

/-- The request handleSubmit issues (AuthPage.js lines 63-68). -/
def authReq (isSignIn : Bool) (name email password : String) : AuthRequest :=
  if isSignIn then AuthRequest.login email password
  else AuthRequest.signup name email password

/-- The synchronous prefix of handleSubmit up to the await
(AuthPage.js lines 57-68). -/
def authStart (isSignIn : Bool) (name email password : String)
    (st : AuthState) : AuthState × AuthRequest :=
  ({ st with error := "", loading := true },
   authReq isSignIn name email password)

/-- The continuation of handleSubmit after the await
(AuthPage.js lines 70-81): on a success status store the token and user
id and redirect to the wizard, on a throw show the detail, and reset
loading in finally. -/
def authFinish (st : AuthState) (r : Except ApiFailure AuthResponse) : AuthState :=
  match r with
  | Except.ok resp =>
    let st2 := if resp.status == "success"
      then { st with
        storage := { token := some resp.token,
                     userId := some (toString resp.user_id) },
        route := "/wizard" }
      else st
    { st2 with loading := false }
  | Except.error e =>
    { st with
      error := jsStrOr e.detail "An error occurred. Please try again.",
      loading := false }

/-- handleSubmit (AuthPage.js lines 57-82) with the server behaviour as a
parameter. -/
def handleSubmit (isSignIn : Bool) (name email password : String)
    (st : AuthState) (server : AuthRequest → Except ApiFailure AuthResponse) :
    AuthState :=
  let p := authStart isSignIn name email password st
  authFinish p.1 (server p.2)

/-- The initial formData of WizardPage.js lines 15-27. -/
def initialFormData : FormData :=
  { name := "", email := "", phone := "", location := "",
    professional_summary := "", education := [], experience := [],
    key_skills := [], technical_skills := [], certifications := [],
    awards := [] }

/-- The initial WizardPage state (WizardPage.js lines 9-46). -/
def initialWizardState : WizardState :=
  { currentStep := 0, loading := false, error := "",
    generatedResumeId := none, formData := initialFormData,
    currentEducation := emptyEducation,
    currentExperience := emptyExperience, currentBullet := "" }

/-- The Generate Resume buttons are disabled exactly while loading
(WizardPage.js lines 482 and 500, disabled set to loading). -/
def genDisabled (s : WizardState) : Bool := s.loading

/-- The auth submit button is disabled exactly while loading
(AuthPage.js line 114, disabled set to loading). -/
def authDisabled (st : AuthState) : Bool := st.loading

/-- An event of the generate interaction: a click on the Generate button,
or the arrival of the response of the request in flight. -/
inductive GenEvent where
  | click : GenEvent
  | respond (r : Except ApiFailure GenResponse) : GenEvent

/-- The wizard generate interaction as a small machine: the component
state, the stored userId, and whether a generate request is in flight. -/
structure GenMachine where
  st : WizardState
  stored : Option String
  inflight : Bool
deriving DecidableEq

/-- One step of the generate interaction: a click on a disabled button
does nothing; otherwise the synchronous prefix of handleGenerateResume
runs and may issue the request; a response runs the continuation. The
returned Bool says whether this step issued a request. -/
def genStep (m : GenMachine) : GenEvent → GenMachine × Bool
  | GenEvent.click =>
    if genDisabled m.st then (m, false)
    else
      match genStart m.st m.stored with
      | (s1, none) => ({ m with st := s1 }, false)
      | (s1, some _) => ({ m with st := s1, inflight := true }, true)
  | GenEvent.respond r =>
    if m.inflight then ({ m with st := genFinish m.st r, inflight := false }, false)
    else (m, false)

/-- The invariant tying the loading flag to an in-flight generate
request. -/
def genInv (m : GenMachine) : Prop := m.inflight = true → m.st.loading = true

/-- An event of the auth interaction. -/
inductive AuthEvent where
  | click : AuthEvent
  | respond (r : Except ApiFailure AuthResponse) : AuthEvent

/-- The auth submit interaction as a small machine. -/
structure AuthMachine where
  st : AuthState
  isSignIn : Bool
  name : String
  email : String
  password : String
  inflight : Bool
deriving DecidableEq

/-- One step of the auth interaction, mirroring genStep. -/
def authStep (m : AuthMachine) : AuthEvent → AuthMachine × Bool
  | AuthEvent.click =>
    if authDisabled m.st then (m, false)
    else
      ({ m with st := (authStart m.isSignIn m.name m.email m.password m.st).1,
                inflight := true }, true)
  | AuthEvent.respond r =>
    if m.inflight then ({ m with st := authFinish m.st r, inflight := false }, false)
    else (m, false)

/-- The invariant tying the loading flag to an in-flight auth request. -/
def authInv (m : AuthMachine) : Prop := m.inflight = true → m.st.loading = true

/-- All WizardPage state apart from the error message and the loading
flag agrees between s and t. -/
def preservesNonErrorFields (s t : WizardState) : Prop :=
  t.formData = s.formData ∧ t.generatedResumeId = s.generatedResumeId ∧
  t.currentStep = s.currentStep ∧ t.currentEducation = s.currentEducation ∧
  t.currentExperience = s.currentExperience ∧ t.currentBullet = s.currentBullet

/-- A concrete filled-in form used for concrete evaluations. -/
def fdEx : FormData :=
  { initialFormData with
    name := "Ada"
    email := "ada@mail.io"
    phone := "123"
    location := "Paris"
    professional_summary := "Engineer" }

/-- A concrete candidate profile used for concrete evaluations. -/
def cdEx : CandidateData := buildCandidate fdEx

/-- A concrete auth page state. -/
def authStEx : AuthState :=
  { storage := { token := none, userId := none }, route := "/auth",
    error := "", loading := false }

/-- A concrete successful auth response. -/
def authRespEx : AuthResponse := { status := "success", token := "tok", user_id := 7 }

/-- A wizard state that already holds a generated resume id. -/
def wsEx : WizardState := { initialWizardState with generatedResumeId := some 1 }

/-- A wizard state whose required fields are all filled. -/
def wsOk : WizardState := { initialWizardState with formData := fdEx }

/-- A generate machine with a request in flight. -/
def gmEx : GenMachine :=
  { st := { initialWizardState with loading := true }, stored := none,
    inflight := true }

/-- An auth machine with a request in flight. -/
def amEx : AuthMachine :=
  { st := { authStEx with loading := true }, isSignIn := true, name := "",
    email := "", password := "", inflight := true }

/-! ### Helper lemmas -/

theorem strTruthy_iff (s : String) : strTruthy s = true ↔ s ≠ "" := by
  simp [strTruthy]

theorem strTruthy_and (a b : String) :
    (strTruthy a && strTruthy b) = true ↔ (a ≠ "" ∧ b ≠ "") := by
  simp [strTruthy]

theorem strTruthy_and_false (a b : String) (h : ¬(a ≠ "" ∧ b ≠ "")) :
    (strTruthy a && strTruthy b) = false :=
  Bool.eq_false_iff.2 (fun ht => h ((strTruthy_and a b).1 ht))

theorem enumFrom_snd {α : Type} (l : List α) :
    ∀ n, (List.enumFrom n l).map Prod.snd = l := by
  induction l with
  | nil => intro n; rfl
  | cons a t ih => intro n; simp [List.enumFrom, ih]

theorem enumFrom_filter_lt {α : Type} (t : List α) :
    ∀ (m k : Nat), k < m →
      (List.enumFrom m t).filter (fun p => p.1 != k) = List.enumFrom m t := by
  induction t with
  | nil => intro m k _; rfl
  | cons a t ih =>
    intro m k h
    have hmk : ((m : Nat) != k) = true := by
      simp only [bne_iff_ne, ne_eq]
      omega
    simp [List.enumFrom, List.filter_cons, hmk, ih (m + 1) k (Nat.lt_succ_of_lt h)]

theorem enumFrom_filter_out {α : Type} (l : List α) :
    ∀ (n i : Nat),
      ((List.enumFrom n l).filter (fun p => p.1 != n + i)).map Prod.snd
        = l.take i ++ l.drop (i + 1) := by
  induction l with
  | nil => intro n i; simp
  | cons a t ih =>
    intro n i
    cases i with
    | zero =>
      have h0 : ((n : Nat) != n + 0) = false := by simp
      simp [List.enumFrom, List.filter_cons, h0,
            enumFrom_filter_lt t (n + 1) n (Nat.lt_succ_self n), enumFrom_snd]
    | succ j =>
      have h1 : ¬ ((n : Nat) = n + 1 + j) := by omega
      have h2 := ih (n + 1) j
      rw [(by omega : n + (j + 1) = n + 1 + j)]
      simp [List.enumFrom, List.filter_cons, h1, List.take_succ_cons,
            List.drop_succ_cons, h2]

theorem filterIdx_eq {α : Type} (l : List α) (i : Nat) :
    filterIdx l i = l.take i ++ l.drop (i + 1) := by
  have h := enumFrom_filter_out l 0 i
  simpa [filterIdx] using h

/-! ### Claims -/

/-- C4: addEducation appends the current education entry exactly when
degree and institution are both non-empty and then resets the entry;
addExperience behaves likewise for title and company; addBullet appends
exactly when the bullet is not whitespace-only; each remove operation at
index i keeps everything but position i in order. -/
theorem list_editing_preserves_order (s : WizardState) (i : Nat) :
    ((addEducation s).formData.education
        = s.formData.education ++ [s.currentEducation]
      ↔ (s.currentEducation.degree ≠ "" ∧ s.currentEducation.institution ≠ ""))
  ∧ (addEducation s).currentEducation
      = (if s.currentEducation.degree ≠ "" ∧ s.currentEducation.institution ≠ ""
         then emptyEducation else s.currentEducation)
  ∧ (addEducation s = s
      ↔ ¬(s.currentEducation.degree ≠ "" ∧ s.currentEducation.institution ≠ ""))
  ∧ ((addExperience s).formData.experience
        = s.formData.experience ++ [s.currentExperience]
      ↔ (s.currentExperience.title ≠ "" ∧ s.currentExperience.company ≠ ""))
  ∧ (addExperience s).currentExperience
      = (if s.currentExperience.title ≠ "" ∧ s.currentExperience.company ≠ ""
         then emptyExperience else s.currentExperience)
  ∧ (addExperience s = s
      ↔ ¬(s.currentExperience.title ≠ "" ∧ s.currentExperience.company ≠ ""))
  ∧ ((addBullet s).currentExperience.bullets
        = s.currentExperience.bullets ++ [s.currentBullet]
      ↔ s.currentBullet.trim ≠ "")
  ∧ (addBullet s = s ↔ s.currentBullet.trim = "")
  ∧ (removeEducation s i).formData.education
      = s.formData.education.take i ++ s.formData.education.drop (i + 1)
  ∧ (removeExperience s i).formData.experience
      = s.formData.experience.take i ++ s.formData.experience.drop (i + 1)
  ∧ (removeBullet s i).currentExperience.bullets
      = s.currentExperience.bullets.take i ++ s.currentExperience.bullets.drop (i + 1) := by
  refine ⟨?_, ?_, ?_, ?_, ?_, ?_, ?_, ?_, ?_, ?_, ?_⟩
  · by_cases h : (s.currentEducation.degree ≠ "" ∧ s.currentEducation.institution ≠ "")
    · simp [addEducation, (strTruthy_and _ _).2 h, h]
    · simp [addEducation, strTruthy_and_false _ _ h, h]
  · by_cases h : (s.currentEducation.degree ≠ "" ∧ s.currentEducation.institution ≠ "")
    · simp [addEducation, (strTruthy_and _ _).2 h, h]
    · simp [addEducation, strTruthy_and_false _ _ h, h]
  · by_cases h : (s.currentEducation.degree ≠ "" ∧ s.currentEducation.institution ≠ "")
    · refine iff_of_false ?_ (not_not_intro h)
      intro heq
      have hlen := congrArg (fun st => st.formData.education.length) heq
      simp [addEducation, (strTruthy_and _ _).2 h] at hlen
    · simp [addEducation, strTruthy_and_false _ _ h, h]
  · by_cases h : (s.currentExperience.title ≠ "" ∧ s.currentExperience.company ≠ "")
    · simp [addExperience, (strTruthy_and _ _).2 h, h]
    · simp [addExperience, strTruthy_and_false _ _ h, h]
  · by_cases h : (s.currentExperience.title ≠ "" ∧ s.currentExperience.company ≠ "")
    · simp [addExperience, (strTruthy_and _ _).2 h, h]
    · simp [addExperience, strTruthy_and_false _ _ h, h]
  · by_cases h : (s.currentExperience.title ≠ "" ∧ s.currentExperience.company ≠ "")
    · refine iff_of_false ?_ (not_not_intro h)
      intro heq
      have hlen := congrArg (fun st => st.formData.experience.length) heq
      simp [addExperience, (strTruthy_and _ _).2 h] at hlen
    · simp [addExperience, strTruthy_and_false _ _ h, h]
  · by_cases h : s.currentBullet.trim = ""
    · simp [addBullet, strTruthy, h]
    · simp [addBullet, strTruthy, h]
  · by_cases h : s.currentBullet.trim = ""
    · simp [addBullet, strTruthy, h]
    · simp only [h, iff_false]
      intro heq
      have hlen := congrArg (fun st => st.currentExperience.bullets.length) heq
      simp [addBullet, strTruthy, h] at hlen
  · simp [removeEducation, filterIdx_eq]
  · simp [removeExperience, filterIdx_eq]
  · simp [removeBullet, filterIdx_eq]

/-- C5: currentStep stays within 0..4 under handleNext, handlePrev and a
sidebar step click; handleNext on the last step and handlePrev on step 0
are no-ops; the clamped variant of src/unnamed/part_001 satisfies the same
bounds and no-ops. -/
theorem step_navigation_bounded (s : WizardState) (i : Nat)
    (h0 : 0 ≤ s.currentStep) (h4 : s.currentStep ≤ 4) :
    (0 ≤ (handleNext s).currentStep ∧ (handleNext s).currentStep ≤ 4)
  ∧ (0 ≤ (handlePrev s).currentStep ∧ (handlePrev s).currentStep ≤ 4)
  ∧ (i < steps.length →
      0 ≤ (stepClick s i).currentStep ∧ (stepClick s i).currentStep ≤ 4)
  ∧ (s.currentStep = 4 → handleNext s = s)
  ∧ (s.currentStep = 0 → handlePrev s = s)
  ∧ (0 ≤ handleNextClamp s.currentStep ∧ handleNextClamp s.currentStep ≤ 4)
  ∧ (0 ≤ handlePrevClamp s.currentStep ∧ handlePrevClamp s.currentStep ≤ 4)
  ∧ (s.currentStep = 4 → handleNextClamp s.currentStep = s.currentStep)
  ∧ (s.currentStep = 0 → handlePrevClamp s.currentStep = s.currentStep) := by
  refine ⟨?_, ?_, ?_, ?_, ?_, ?_, ?_, ?_, ?_⟩
  · simp only [handleNext, steps]
    split <;> constructor <;> simp_all <;> omega
  · simp only [handlePrev, steps]
    split <;> constructor <;> simp_all <;> omega
  · intro hi
    simp only [steps, List.length] at hi
    constructor
    · simp [stepClick]
    · simp only [stepClick]
      omega
  · intro h
    simp [handleNext, steps, h]
  · intro h
    simp [handlePrev, h]
  · simp only [handleNextClamp, stepsV1, List.length]
    constructor <;> omega
  · simp only [handlePrevClamp]
    constructor <;> omega
  · intro h
    simp only [handleNextClamp, stepsV1, List.length, h]
    omega
  · intro h
    simp only [handlePrevClamp, h]
    omega

/-- C5 witness: the initial wizard state satisfies the step bounds. -/
theorem step_navigation_bounded_witness :
    0 ≤ (handleNext initialWizardState).currentStep ∧
      (handleNext initialWizardState).currentStep ≤ 4 :=
  (step_navigation_bounded initialWizardState 2 (by decide) (by decide)).1

theorem requiredAll_iff (fd : FormData) :
    requiredAll fd = true ↔
      (fd.name ≠ "" ∧ fd.email ≠ "" ∧ fd.phone ≠ "" ∧ fd.location ≠ ""
        ∧ fd.professional_summary ≠ "") := by
  simp [requiredAll, strTruthy, and_assoc]

theorem genStart_spec (s : WizardState) (stored : Option String) :
    (requiredAll s.formData = true →
       genStart s stored = ({ s with loading := true, error := "" },
         some (resumeGenerate (buildCandidate s.formData) (wizardUserId stored))))
  ∧ (requiredAll s.formData = false →
       (genStart s stored).2 = none ∧ (genStart s stored).1.loading = false ∧
       ((genStart s stored).1.error = "Please fill in all personal information fields" ∨
        (genStart s stored).1.error = "Please provide a professional summary") ∧
       preservesNonErrorFields s (genStart s stored).1) := by
  cases hb1 : (strTruthy s.formData.name && strTruthy s.formData.email &&
      strTruthy s.formData.phone && strTruthy s.formData.location) with
  | false =>
    constructor
    · intro hra
      rw [requiredAll, hb1] at hra
      simp at hra
    · intro _
      simp [genStart, hb1, preservesNonErrorFields]
  | true =>
    cases hb2 : strTruthy s.formData.professional_summary with
    | false =>
      constructor
      · intro hra
        rw [requiredAll, hb1, hb2] at hra
        simp at hra
      · intro _
        simp [genStart, hb1, hb2, preservesNonErrorFields]
    | true =>
      constructor
      · intro _
        simp [genStart, hb1, hb2]
      · intro hra
        rw [requiredAll, hb1, hb2] at hra
        simp at hra

/-- C1: handleGenerateResume issues the generate request exactly when all
five required fields are non-empty; when any of them is empty it sets one
of the two error messages and performs no network call. -/
theorem generate_requires_validation (s : WizardState) (stored : Option String)
    (server : GenPayload → Except ApiFailure GenResponse) :
    ((handleGenerateResume s stored server).request.isSome = true
      ↔ (s.formData.name ≠ "" ∧ s.formData.email ≠ "" ∧ s.formData.phone ≠ ""
          ∧ s.formData.location ≠ "" ∧ s.formData.professional_summary ≠ ""))
  ∧ (¬(s.formData.name ≠ "" ∧ s.formData.email ≠ "" ∧ s.formData.phone ≠ ""
        ∧ s.formData.location ≠ "" ∧ s.formData.professional_summary ≠ "") →
      (handleGenerateResume s stored server).request = none
      ∧ ((handleGenerateResume s stored server).state.error
            = "Please fill in all personal information fields"
        ∨ (handleGenerateResume s stored server).state.error
            = "Please provide a professional summary")) := by
  cases hra : requiredAll s.formData with
  | true =>
    have hgs := (genStart_spec s stored).1 hra
    constructor
    · simp [handleGenerateResume, hgs, (requiredAll_iff s.formData).1 hra]
    · intro hn
      exact absurd ((requiredAll_iff s.formData).1 hra) hn
  | false =>
    have h2 := (genStart_spec s stored).2 hra
    rcases hg : genStart s stored with ⟨s1, ro⟩
    rw [hg] at h2
    obtain ⟨hro, _, herr, _⟩ := h2
    simp only at hro
    subst hro
    have hnall : ¬(s.formData.name ≠ "" ∧ s.formData.email ≠ ""
        ∧ s.formData.phone ≠ "" ∧ s.formData.location ≠ ""
        ∧ s.formData.professional_summary ≠ "") := by
      rw [← requiredAll_iff, hra]
      simp
    constructor
    · simp [handleGenerateResume, hg, hnall]
    · intro _
      refine ⟨by simp [handleGenerateResume, hg], ?_⟩
      simpa [handleGenerateResume, hg] using herr

/-- C1 witness: on the initial, empty form no request is issued and an
error message is set. -/
theorem generate_requires_validation_witness :
    (handleGenerateResume initialWizardState none
        (fun _ => Except.ok { status := "success", data := { resume_id := 1 } })).request = none
    ∧ ((handleGenerateResume initialWizardState none
          (fun _ => Except.ok { status := "success", data := { resume_id := 1 } })).state.error
          = "Please fill in all personal information fields"
      ∨ (handleGenerateResume initialWizardState none
          (fun _ => Except.ok { status := "success", data := { resume_id := 1 } })).state.error
          = "Please provide a professional summary") := by
  have h := generate_requires_validation initialWizardState none
    (fun _ => Except.ok { status := "success", data := { resume_id := 1 } })
  exact h.2 (by decide)

/-- C3 counterexample: with userId 0 the argument is given yet the
user_id field is omitted from the payload, so the field is not added
exactly when a userId is given. -/
theorem generate_userid_claim_false :
    ¬ ((resumeGenerate cdEx (some (JsNum.int 0))).user_id.isSome
        = (some (JsNum.int 0)).isSome) := by
  simp [resumeGenerate, jsOptTruthy, JsNum.truthy]

/-- C3 amended: resumeGenerate issues its single POST with the candidate
profile unchanged, returns the response of that POST unchanged, and adds
the user_id field exactly when the given userId is truthy (non-null,
non-zero, not NaN). -/
theorem generate_passthrough (cd : CandidateData) (uid : Option JsNum)
    (post : GenPayload → Except ApiFailure GenResponse) :
    (resumeGenerateCall cd uid post).2 = post (resumeGenerateCall cd uid post).1
  ∧ (resumeGenerateCall cd uid post).1.candidate = cd
  ∧ (resumeGenerateCall cd uid post).1.user_id
      = (if jsOptTruthy uid = true then uid else none)
  ∧ (resumeGenerateCall cd uid post).1.user_id.isSome = jsOptTruthy uid := by
  refine ⟨rfl, rfl, rfl, ?_⟩
  cases uid with
  | none => simp [resumeGenerateCall, resumeGenerate, jsOptTruthy]
  | some u =>
    cases hu : u.truthy with
    | false => simp [resumeGenerateCall, resumeGenerate, jsOptTruthy, hu]
    | true => simp [resumeGenerateCall, resumeGenerate, jsOptTruthy, hu]

/-- C9: the user_id field is omitted for every falsy userId value: null,
0, NaN, and in particular the NaN produced when the stored userId string
fails parseInt in the wizard. -/
theorem generate_userid_truthiness (cd : CandidateData) :
    (resumeGenerate cd none).user_id = none
  ∧ (resumeGenerate cd (some (JsNum.int 0))).user_id = none
  ∧ (resumeGenerate cd (some JsNum.nan)).user_id = none
  ∧ (∀ uid, jsOptTruthy uid = false → (resumeGenerate cd uid).user_id = none)
  ∧ (∀ u : String, parseIntJs u = JsNum.nan →
      (resumeGenerate cd (wizardUserId (some u))).user_id = none) := by
  refine ⟨?_, ?_, ?_, ?_, ?_⟩
  · simp [resumeGenerate, jsOptTruthy]
  · simp [resumeGenerate, jsOptTruthy, JsNum.truthy]
  · simp [resumeGenerate, jsOptTruthy, JsNum.truthy]
  · intro uid h
    simp [resumeGenerate, h]
  · intro u h
    cases hst : strTruthy u with
    | false => simp [wizardUserId, resumeGenerate, jsOptTruthy, hst]
    | true => simp [wizardUserId, resumeGenerate, jsOptTruthy, hst, h, JsNum.truthy]

/-- C9 witness: a stored userId string that fails parseInt leads to an
omitted user_id field. -/
theorem generate_userid_truthiness_witness :
    (resumeGenerate cdEx (wizardUserId (some "abc"))).user_id = none := by
  have h := generate_userid_truthiness cdEx
  exact h.2.2.2.2 "abc" (by decide)

/-- C2 counterexample: a failing download whose server failure carries a
detail field still renders the generic fallback, so the download message
is not sourced from the detail field when present. -/
theorem download_detail_ignored :
    ¬ ((handleDownload wsEx
          (fun _ => Except.error { detail := some "quota exceeded" })).error
        = "quota exceeded") := by
  decide

/-- C2 amended: login, signup and generate failures render the server
detail field when it is a present, non-empty (truthy) string and a
generic fallback otherwise, while a download failure always renders its
generic fallback, ignoring any detail; a falsy generatedResumeId (null
or id 0) early-returns with no download request. -/
theorem error_message_rendering (isSignIn : Bool) (n em pw : String)
    (st : AuthState) (e : ApiFailure) (s : WizardState) (stored : Option String)
    (rid : Nat) (hreq : requiredAll s.formData = true) :
    (handleSubmit isSignIn n em pw st (fun _ => Except.error e)).error
        = jsStrOr e.detail "An error occurred. Please try again."
  ∧ (handleGenerateResume s stored (fun _ => Except.error e)).state.error
        = jsStrOr e.detail "Failed to generate resume. Please try again."
  ∧ (rid ≠ 0 →
      (handleDownload { s with generatedResumeId := some rid }
          (fun _ => Except.error e)).error
        = "Failed to download resume. Please try again."
      ∧ (handleDownload { s with generatedResumeId := some rid }
          (fun _ => Except.error e)).request = some rid)
  ∧ (jsOptNatTruthy s.generatedResumeId = false →
      (handleDownload s (fun _ => Except.error e)).request = none
      ∧ (handleDownload s (fun _ => Except.error e)).error
          = "Please generate a resume first") := by
  refine ⟨?_, ?_, ?_, ?_⟩
  · simp [handleSubmit, authStart, authFinish]
  · have hgs := (genStart_spec s stored).1 hreq
    simp [handleGenerateResume, hgs, genFinish]
  · intro hrid
    simp [handleDownload, jsOptNatTruthy, hrid]
  · intro hf
    simp [handleDownload, hf]

/-- C2 witness: a generate failure without a detail field renders the
generic generate fallback. -/
theorem error_message_rendering_witness :
    (handleGenerateResume wsOk none
        (fun _ => Except.error { detail := none })).state.error
      = jsStrOr none "Failed to generate resume. Please try again." :=
  (error_message_rendering true "" "" "" authStEx
    { detail := none } wsOk none 1 (by decide)).2.1

/-- C6 counterexample: an empty-string token is present in local storage,
yet no Authorization header is attached, so the header is not attached
exactly when a token is present. -/
theorem bearer_token_claim_false :
    ¬ ((requestInterceptor { token := some "", userId := none } baseHeaders).authorization
        = some ("Bearer " ++ "")) := by
  decide

/-- C6 amended: the interceptor attaches Bearer followed by the stored
token exactly when a non-empty token is present in local storage; with no
stored token, or an empty one, the request is left unchanged. -/
theorem bearer_token_attachment (tok uid : Option String) (cfg : Headers) :
    (requestInterceptor { token := tok, userId := uid } cfg).authorization
      = (match tok with
         | some t => if t ≠ "" then some ("Bearer " ++ t) else cfg.authorization
         | none => cfg.authorization)
  ∧ ((requestInterceptor { token := tok, userId := uid } baseHeaders).authorization.isSome
      ↔ ∃ t, tok = some t ∧ t ≠ "")
  ∧ (tok = none → requestInterceptor { token := tok, userId := uid } cfg = cfg) := by
  refine ⟨?_, ?_, ?_⟩
  · cases tok with
    | none => rfl
    | some t =>
      by_cases h : t = "" <;> simp [requestInterceptor, strTruthy, h]
  · cases tok with
    | none => simp [requestInterceptor, baseHeaders]
    | some t =>
      by_cases h : t = "" <;> simp [requestInterceptor, baseHeaders, strTruthy, h]
  · intro h
    subst h
    rfl

/-- C6 witness: with no stored token the request headers are unchanged. -/
theorem bearer_token_attachment_witness :
    requestInterceptor { token := none, userId := none } baseHeaders = baseHeaders :=
  (bearer_token_attachment none none baseHeaders).2.2 rfl

/-- C7: on a success-status auth response the token and user id are
written to local storage and the route becomes the wizard page; on any
other status both local storage and the route are unchanged. -/
theorem auth_success_stores_and_redirects (isSignIn : Bool) (n em pw : String)
    (st : AuthState) (server : AuthRequest → Except ApiFailure AuthResponse)
    (r : AuthResponse)
    (hr : server (authReq isSignIn n em pw) = Except.ok r) :
    (r.status = "success" →
       (handleSubmit isSignIn n em pw st server).storage
           = { token := some r.token, userId := some (toString r.user_id) }
       ∧ (handleSubmit isSignIn n em pw st server).route = "/wizard")
  ∧ (r.status ≠ "success" →
       (handleSubmit isSignIn n em pw st server).storage = st.storage
       ∧ (handleSubmit isSignIn n em pw st server).route = st.route) := by
  constructor
  · intro hs
    simp [handleSubmit, authStart, authFinish, hr, hs]
  · intro hs
    simp [handleSubmit, authStart, authFinish, hr, hs]

/-- C7 witness: a concrete successful login stores the token and user id
and redirects to the wizard. -/
theorem auth_success_stores_and_redirects_witness :
    (handleSubmit true "" "e" "p" authStEx (fun _ => Except.ok authRespEx)).storage
        = { token := some authRespEx.token, userId := some (toString authRespEx.user_id) }
    ∧ (handleSubmit true "" "e" "p" authStEx (fun _ => Except.ok authRespEx)).route
        = "/wizard" :=
  (auth_success_stores_and_redirects true "" "e" "p" authStEx
    (fun _ => Except.ok authRespEx) authRespEx rfl).1 rfl

theorem genStart_loading (s : WizardState) (stored : Option String) :
    (genStart s stored).2.isSome = true → (genStart s stored).1.loading = true := by
  simp only [genStart]
  split
  · simp
  · split
    · simp
    · simp

theorem genFinish_loading (s : WizardState) (r : Except ApiFailure GenResponse) :
    (genFinish s r).loading = false := by
  cases r <;> rfl

/-- C10: when handleGenerateResume fails, by validation or by the request
throwing, the form data, the generated resume id, the step and the
in-progress entries are all unchanged; only the error message and the
loading flag can differ. -/
theorem generate_failure_atomic (s : WizardState) (stored : Option String)
    (server : GenPayload → Except ApiFailure GenResponse) (e : ApiFailure) :
    preservesNonErrorFields s
        (handleGenerateResume s stored (fun _ => Except.error e)).state
  ∧ ((handleGenerateResume s stored server).request = none →
      preservesNonErrorFields s (handleGenerateResume s stored server).state) := by
  constructor
  · cases hra : requiredAll s.formData with
    | true =>
      have hgs := (genStart_spec s stored).1 hra
      simp [handleGenerateResume, hgs, genFinish, preservesNonErrorFields]
    | false =>
      have h2 := (genStart_spec s stored).2 hra
      rcases hg : genStart s stored with ⟨s1, ro⟩
      rw [hg] at h2
      obtain ⟨hro, _, _, hpres⟩ := h2
      simp only at hro
      subst hro
      simpa [handleGenerateResume, hg] using hpres
  · intro hnone
    rcases hg : genStart s stored with ⟨s1, ro⟩
    cases ro with
    | some p => simp [handleGenerateResume, hg] at hnone
    | none =>
      cases hra : requiredAll s.formData with
      | true =>
        have hgs := (genStart_spec s stored).1 hra
        rw [hg] at hgs
        simp at hgs
      | false =>
        have h2 := (genStart_spec s stored).2 hra
        rw [hg] at h2
        simpa [handleGenerateResume, hg] using h2.2.2.2

/-- C10 witness: a failed validation on the initial state leaves all
non-error state unchanged. -/
theorem generate_failure_atomic_witness :
    preservesNonErrorFields initialWizardState
      (handleGenerateResume initialWizardState none
        (fun _ => Except.ok { status := "success", data := { resume_id := 1 } })).state := by
  have h := generate_failure_atomic initialWizardState none
    (fun _ => Except.ok { status := "success", data := { resume_id := 1 } }) { detail := none }
  exact h.2 (by decide)

/-- C8: in both the generate and the auth interaction, the loading flag
is on from request issue until the response arrives, a response always
clears it (the finally branch), the triggering button is disabled exactly
while loading, and a click while a request is in flight neither changes
the state nor issues a second request. -/
theorem loading_guards_single_flight (m : GenMachine) (e : GenEvent)
    (r : Except ApiFailure GenResponse) (am : AuthMachine) (ae : AuthEvent)
    (ar : Except ApiFailure AuthResponse) (stored : Option String)
    (hg : genInv m) (ha : authInv am) :
    genInv { st := initialWizardState, stored := stored, inflight := false }
  ∧ genInv (genStep m e).1
  ∧ ((genStep m e).2 = true →
      (genStep m e).1.st.loading = true ∧ (genStep m e).1.inflight = true)
  ∧ (m.inflight = true → genStep m GenEvent.click = (m, false))
  ∧ (m.inflight = true →
      (genStep m (GenEvent.respond r)).1.st.loading = false
      ∧ (genStep m (GenEvent.respond r)).1.inflight = false)
  ∧ (∀ w : WizardState, genDisabled w = w.loading)
  ∧ authInv (authStep am ae).1
  ∧ ((authStep am ae).2 = true →
      (authStep am ae).1.st.loading = true ∧ (authStep am ae).1.inflight = true)
  ∧ (am.inflight = true → authStep am AuthEvent.click = (am, false))
  ∧ (am.inflight = true →
      (authStep am (AuthEvent.respond ar)).1.st.loading = false
      ∧ (authStep am (AuthEvent.respond ar)).1.inflight = false)
  ∧ (∀ a : AuthState, authDisabled a = a.loading) := by
  refine ⟨?_, ?_, ?_, ?_, ?_, ?_, ?_, ?_, ?_, ?_, ?_⟩
  · intro hin
    simp at hin
  · cases e with
    | click =>
      simp only [genStep]
      cases hd : genDisabled m.st with
      | true => simpa [genInv] using hg
      | false =>
        rcases hgs : genStart m.st m.stored with ⟨s1, ro⟩
        cases ro with
        | none =>
          intro hin
          simp only at hin
          have hload := hg hin
          simp [genDisabled, hload] at hd
        | some p =>
          intro _
          have hl := genStart_loading m.st m.stored
          rw [hgs] at hl
          simpa using hl (by simp)
    | respond r0 =>
      simp only [genStep]
      cases hf : m.inflight with
      | true =>
        intro hin
        simp at hin
      | false => simpa [genInv] using hg
  · cases e with
    | click =>
      simp only [genStep]
      cases hd : genDisabled m.st with
      | true => simp
      | false =>
        rcases hgs : genStart m.st m.stored with ⟨s1, ro⟩
        cases ro with
        | none => simp
        | some p =>
          intro _
          have hl := genStart_loading m.st m.stored
          rw [hgs] at hl
          exact ⟨by simpa using hl (by simp), rfl⟩
    | respond r0 =>
      simp only [genStep]
      cases hf : m.inflight with
      | true => simp
      | false => simp
  · intro hin
    have hload := hg hin
    simp [genStep, genDisabled, hload]
  · intro hin
    simp [genStep, hin, genFinish_loading]
  · intro w
    rfl
  · cases ae with
    | click =>
      simp only [authStep]
      cases hd : authDisabled am.st with
      | true => simpa [authInv] using ha
      | false =>
        intro _
        rfl
    | respond r0 =>
      simp only [authStep]
      cases hf : am.inflight with
      | true =>
        intro hin
        simp at hin
      | false => simpa [authInv] using ha
  · cases ae with
    | click =>
      simp only [authStep]
      cases hd : authDisabled am.st with
      | true => simp
      | false => exact fun _ => ⟨rfl, rfl⟩
    | respond r0 =>
      simp only [authStep]
      cases hf : am.inflight with
      | true => simp
      | false => simp
  · intro hin
    have hload := ha hin
    simp [authStep, authDisabled, hload]
  · intro hin
    have hfin : ∀ st r2, (authFinish st r2).loading = false := by
      intro st r2
      cases r2 <;> rfl
    simp [authStep, hin, hfin]
  · intro a
    rfl

/-- C8 witness: with a request in flight (loading on), a click on either
button is a no-op and issues nothing. -/
theorem loading_guards_single_flight_witness :
    genStep gmEx GenEvent.click = (gmEx, false)
    ∧ authStep amEx AuthEvent.click = (amEx, false) := by
  have h := loading_guards_single_flight gmEx GenEvent.click
    (Except.error { detail := none }) amEx AuthEvent.click
    (Except.error { detail := none }) none (fun _ => rfl) (fun _ => rfl)
  exact ⟨h.2.2.2.1 rfl, h.2.2.2.2.2.2.2.2.1 rfl⟩
